import Mathlib

/-!
Verification of the photo-enrol workflow (src/python-enrol/photo_enrol.py).

The script is a linear sequence of four HTTP calls: request an enrolment
token, submit a photo, and — when the delete flag is set — request an OAuth
access token and delete the user.  We embed it shallowly: each step becomes a
pure Lean function from the configuration and the relevant piece of the
environment (the HTTP response the service would return, the contents of the
image file) to a `StepResult` recording the HTTP calls issued, the log lines
emitted, and either a value or the way the step aborted the process.
`photo_enrol` composes the steps exactly as the script does.
-/

namespace PhotoEnrol

/-- The configuration object (class `Settings` in the script), loaded once
from environment variables and immutable afterwards. -/
structure Settings where
  LOG_LEVEL : String
  region : String
  img_src : String
  img_path : String
  sp_key : String
  sp_secret : String
  oa_username : String
  oa_pw : String
deriving DecidableEq, Repr

/-- The command-line arguments: the single boolean flag `--delete_user`. -/
structure Args where
  delete_user : Bool
deriving DecidableEq, Repr

/-- An HTTP response as the script observes it: the status code, the raw body
text (used in error log messages), and the parsed JSON object body abstracted
as a string-keyed association list (the script only ever looks up one key in
it). -/
structure Response where
  status : Nat
  text : String
  jsonBody : List (String × String)
deriving DecidableEq, Repr

/-- One value of the `files=` dict of the photo submission: `(None, value)`
is a plain text part, `("image", bytes)` is a file part with a filename and
raw byte content (bytes modelled as `List Nat`). -/
inductive Part where
  | text (value : String)
  | file (filename : String) (content : List Nat)
deriving DecidableEq, Repr

/-- An outbound HTTP request issued by the script, with everything the script
puts into it. -/
inductive HttpCall where
  | postJson (url : String) (body : List (String × String))
  | postMultipart (url : String) (body : List (String × Part))
  | postForm (url : String) (body : List (String × String))
      (basicAuth : String × String)
  | deleteReq (url : String) (headers : List (String × String))
deriving DecidableEq, Repr

/-- Severity of a log line. -/
inductive LogLevel where
  | debug
  | info
  | error
deriving DecidableEq, Repr

/-- A log line: its level and message text.  The debug lines that render the
request dicts are abstracted to their fixed prefix; info and error messages
are modelled in full since the error-handling claims are about them. -/
structure LogEntry where
  level : LogLevel
  msg : String
deriving DecidableEq, Repr

/-- The uncaught Python exceptions the script can raise. -/
inductive Exn where
  | keyError (key : String)
  | fileError (path : String)
deriving DecidableEq, Repr

/-- How a step aborts the process: `sys.exit()` or an uncaught exception. -/
inductive Abort where
  | sysExit
  | uncaught (e : Exn)
deriving DecidableEq, Repr

/-- How a whole run ends. -/
inductive Outcome where
  | completed
  | sysExit
  | uncaught (e : Exn)
deriving DecidableEq, Repr

/-- The process exit status of each outcome: normal completion exits 0,
`sys.exit()` with no argument raises `SystemExit(None)` which also exits 0,
and an uncaught exception makes the interpreter exit with status 1. -/
def exitCode : Outcome → Nat
  | .completed => 0
  | .sysExit => 0
  | .uncaught _ => 1

/-- The environment of one run: the response the service returns to each of
the four possible requests, and the contents of the image file (`none` when
`open` fails because the path is missing or unreadable). -/
structure World where
  tokenResp : Response
  fileContents : Option (List Nat)
  photoResp : Response
  accessResp : Response
  deleteResp : Response
deriving DecidableEq, Repr

/-- What one step of the workflow produces: the HTTP calls it issued, the log
lines it emitted, and either its return value or the abort that terminated
the process inside it. -/
structure StepResult (α : Type) where
  calls : List HttpCall
  logs : List LogEntry
  result : Except Abort α

/-- `request_log(req, msg)`: on status 200 logs `msg + " succeeded"` at info
level; otherwise logs `msg + " failed. " + status + " " + text` at error
level and calls `sys.exit()` (no argument). -/
def request_log (resp : Response) (msg : String) :
    List LogEntry × Except Abort Unit :=
  if resp.status = 200 then
    ([⟨.info, msg ++ " succeeded"⟩], .ok ())
  else
    ([⟨.error, msg ++ " failed. " ++ toString resp.status ++ " " ++ resp.text⟩],
     .error .sysExit)

/-- URL of the enrolment-token request. -/
def enrol_token_url (config : Settings) : String :=
  "https://" ++ config.region ++ ".secure.iproov.me/api/v2/claim/enrol/token"

/-- JSON body of the enrolment-token request. -/
def enrol_token_body (config : Settings) (username : String) :
    List (String × String) :=
  [("resource", "photo_enrol_test"),
   ("api_key", config.sp_key),
   ("secret", config.sp_secret),
   ("user_id", username)]

/-- `create_token(config, username)`: posts the enrolment-token request,
checks the response via `request_log`, then reads `["token"]` from the JSON
body; a missing key raises an uncaught `KeyError`. -/
def create_token (config : Settings) (username : String) (resp : Response) :
    StepResult String :=
  let url := enrol_token_url config
  let body := enrol_token_body config username
  let dbg : LogEntry := ⟨.debug, "getting enrol token, url=" ++ url⟩
  let rl := request_log resp "create token"
  match rl.2 with
  | .error a => ⟨[.postJson url body], dbg :: rl.1, .error a⟩
  | .ok _ =>
    match resp.jsonBody.lookup "token" with
    | some t => ⟨[.postJson url body], dbg :: rl.1, .ok t⟩
    | none => ⟨[.postJson url body], dbg :: rl.1,
               .error (.uncaught (.keyError "token"))⟩

/-- URL of the photo submission. -/
def enrol_image_url (config : Settings) : String :=
  "https://" ++ config.region ++ ".secure.iproov.me/api/v2/claim/enrol/image"

/-- Multipart body of the photo submission, exactly as the script builds it:
text parts `api_key`, `secret`, `rotation` (the constant "0"), `token`,
`source`, and the file part `image` carrying the image bytes under the
filename "image". -/
def enrol_image_body (config : Settings) (token : String) (image : List Nat) :
    List (String × Part) :=
  [("api_key", .text config.sp_key),
   ("secret", .text config.sp_secret),
   ("rotation", .text "0"),
   ("image", .file "image" image),
   ("token", .text token),
   ("source", .text config.img_src)]

/-- `send_photo(config, token)`: opens the configured image path and reads it
fully (a failing `open` raises an uncaught `OSError` before any request is
issued), then posts the multipart body and checks the response via
`request_log`. -/
def send_photo (config : Settings) (token : String)
    (fileContents : Option (List Nat)) (resp : Response) : StepResult Unit :=
  match fileContents with
  | none => ⟨[], [], .error (.uncaught (.fileError config.img_path))⟩
  | some image =>
    let url := enrol_image_url config
    let body := enrol_image_body config token image
    let dbg : LogEntry := ⟨.debug, "sending image for enrolment, url=" ++ url⟩
    let rl := request_log resp "enrol image"
    ⟨[.postMultipart url body], dbg :: rl.1, rl.2⟩

/-- URL of the OAuth access-token request. -/
def access_token_url (config : Settings) : String :=
  "https://" ++ config.region ++ ".secure.iproov.me/api/v2/" ++
    config.sp_key ++ "/access_token"

/-- `create_access_token(config)`: posts the client-credentials form body
with HTTP Basic authentication, checks the response via `request_log`, then
reads `["access_token"]` from the JSON body; a missing key raises an
uncaught `KeyError`. -/
def create_access_token (config : Settings) (resp : Response) :
    StepResult String :=
  let url := access_token_url config
  let body := [("grant_type", "client_credentials")]
  let dbg : LogEntry := ⟨.debug, "getting oauth access token"⟩
  let rl := request_log resp "generate access token"
  match rl.2 with
  | .error a =>
    ⟨[.postForm url body (config.oa_username, config.oa_pw)],
     dbg :: rl.1, .error a⟩
  | .ok _ =>
    match resp.jsonBody.lookup "access_token" with
    | some t =>
      ⟨[.postForm url body (config.oa_username, config.oa_pw)],
       dbg :: rl.1, .ok t⟩
    | none =>
      ⟨[.postForm url body (config.oa_username, config.oa_pw)],
       dbg :: rl.1, .error (.uncaught (.keyError "access_token"))⟩

/-- URL of the user-deletion request. -/
def delete_user_url (config : Settings) (username : String) : String :=
  "https://" ++ config.region ++ ".secure.iproov.me/api/v2/users/" ++ username

/-- `delete_user(config, access_token, username)`: issues the DELETE request
with a bearer-token header and checks the response via `request_log`. -/
def delete_user (config : Settings) (access_token : String)
    (username : String) (resp : Response) : StepResult Unit :=
  let url := delete_user_url config username
  let header := [("Authorization", "Bearer " ++ access_token)]
  let dbg : LogEntry := ⟨.debug, "deleting user"⟩
  let rl := request_log resp "delete user"
  ⟨[.deleteReq url header], dbg :: rl.1, rl.2⟩

/-- Modelled from the spec: `friendlywords.generate(3, separator="_")`, from
the external `friendlywords` library (not part of this repository).  Per the
spec it produces "a randomly generated three-word identifier (human-readable,
underscore-separated)"; we take the three randomly drawn words as an input
and model the joining with the separator. -/
def fw_generate (words : Fin 3 → String) : String :=
  words 0 ++ "_" ++ words 1 ++ "_" ++ words 2

/-- Sequencing of steps: an abort stops the run, a value feeds the
continuation; calls and logs accumulate in order. -/
def seqStep {α β : Type} (s : StepResult α) (k : α → StepResult β) :
    StepResult β :=
  match s.result with
  | .error a => ⟨s.calls, s.logs, .error a⟩
  | .ok x =>
    let t := k x
    ⟨s.calls ++ t.calls, s.logs ++ t.logs, t.result⟩

/-- Conversion of a step abort into a run outcome. -/
def abortOutcome : Abort → Outcome
  | .sysExit => .sysExit
  | .uncaught e => .uncaught e

/-- What a whole run produces: the ordered list of HTTP calls issued, the log
lines, and how the process ended. -/
structure RunResult where
  calls : List HttpCall
  logs : List LogEntry
  outcome : Outcome
deriving DecidableEq, Repr

/-- `photo_enrol(args, config)`: generates a username (first, before any
HTTP call), requests the enrolment token with it, submits the photo with the
returned token, and — only when the `delete_user` flag is set — requests an
access token and deletes the generated username with it. -/
def photo_enrol (args : Args) (config : Settings) (words : Fin 3 → String)
    (w : World) : RunResult :=
  let username := fw_generate words
  let s :=
    seqStep (create_token config username w.tokenResp) fun token =>
    seqStep (send_photo config token w.fileContents w.photoResp) fun _ =>
    if args.delete_user then
      seqStep (create_access_token config w.accessResp) fun access_token =>
      delete_user config access_token username w.deleteResp
    else
      ⟨[], [], .ok ()⟩
  ⟨s.calls, s.logs,
   match s.result with
   | .ok _ => .completed
   | .error a => abortOutcome a⟩

/-- Python's `str.upper()` on the ASCII level names: uppercase every
character. -/
def strUpper (s : String) : String :=
  ⟨s.data.map Char.toUpper⟩

/-- The logging level the script configures: `settings.LOG_LEVEL.upper()`
passed to `logging.basicConfig`. -/
def configuredLogLevel (config : Settings) : String :=
  strUpper config.LOG_LEVEL

/-- The level names Python's `logging` module accepts. -/
def validLevelNames : List String :=
  ["CRITICAL", "FATAL", "ERROR", "WARN", "WARNING", "INFO", "DEBUG", "NOTSET"]

/-- A sample configuration for concrete witnesses. -/
def cfg0 : Settings :=
  ⟨"info", "eu", "oic", "img.jpg", "key", "sec", "user", "pw"⟩

/-- A 200 response with the given JSON body. -/
def resp200 (body : List (String × String)) : Response :=
  ⟨200, "ok", body⟩

/-- Concrete word draw for witnesses. -/
def words0 : Fin 3 → String := !["red", "fast", "fox"]

/-- A world where every request succeeds with a well-formed body. -/
def w0 : World :=
  ⟨resp200 [("token", "T")], some [1, 2, 3], resp200 [],
   resp200 [("access_token", "A")], resp200 []⟩

/-- C9: the `resource` field of the enrolment-token request body is the
fixed constant string "photo_enrol_test", for every configuration and every
username. -/
theorem c9_resource_field_constant (config : Settings) (username : String) :
    (enrol_token_body config username).lookup "resource" =
      some "photo_enrol_test" := rfl

/-- C7: for every configuration and enrolment token, when the image file is
readable the photo submission issues exactly one request, a multipart POST to
the enrol/image URL whose parts are exactly api_key, secret, rotation, image,
token, source, with rotation the constant "0", image the full file bytes
under the filename "image", and source the configured image source label. -/
theorem c7_multipart_photo_body (config : Settings) (token : String)
    (img : List Nat) (resp : Response) :
    (send_photo config token (some img) resp).calls =
      [.postMultipart
        ("https://" ++ config.region ++
          ".secure.iproov.me/api/v2/claim/enrol/image")
        [("api_key", .text config.sp_key),
         ("secret", .text config.sp_secret),
         ("rotation", .text "0"),
         ("image", .file "image" img),
         ("token", .text token),
         ("source", .text config.img_src)]] := rfl

/-- C1: with the deletion flag set, every HTTP response of status 200 with a
well-formed body (the token and access_token fields present), and a readable
image file, the run issues exactly four HTTP calls, in the order
enrolment-token request, photo submission, access-token request, user
deletion, and exits successfully (exit status 0). -/
theorem c1_four_calls_in_order
    (config : Settings) (words : Fin 3 → String) (w : World)
    (img : List Nat) (tok atok : String)
    (h1 : w.tokenResp.status = 200)
    (h2 : w.tokenResp.jsonBody.lookup "token" = some tok)
    (h3 : w.fileContents = some img)
    (h4 : w.photoResp.status = 200)
    (h5 : w.accessResp.status = 200)
    (h6 : w.accessResp.jsonBody.lookup "access_token" = some atok)
    (h7 : w.deleteResp.status = 200) :
    (photo_enrol ⟨true⟩ config words w).calls =
      [.postJson (enrol_token_url config)
         (enrol_token_body config (fw_generate words)),
       .postMultipart (enrol_image_url config)
         (enrol_image_body config tok img),
       .postForm (access_token_url config)
         [("grant_type", "client_credentials")]
         (config.oa_username, config.oa_pw),
       .deleteReq (delete_user_url config (fw_generate words))
         [("Authorization", "Bearer " ++ atok)]] ∧
    (photo_enrol ⟨true⟩ config words w).outcome = .completed ∧
    exitCode (photo_enrol ⟨true⟩ config words w).outcome = 0 := by
  simp [photo_enrol, seqStep, create_token, send_photo, create_access_token,
        delete_user, request_log, h1, h2, h3, h4, h5, h6, h7, exitCode]

/-- Witness for C1 at a concrete configuration and world. -/
theorem c1_witness :
    (photo_enrol ⟨true⟩ cfg0 words0 w0).outcome = .completed ∧
    exitCode (photo_enrol ⟨true⟩ cfg0 words0 w0).outcome = 0 :=
  ⟨(c1_four_calls_in_order cfg0 words0 w0 [1, 2, 3] "T" "A"
      rfl rfl rfl rfl rfl rfl rfl).2.1,
   (c1_four_calls_in_order cfg0 words0 w0 [1, 2, 3] "T" "A"
      rfl rfl rfl rfl rfl rfl rfl).2.2⟩

/-- C5: when the enrolment-token request returns HTTP 500, the run issues
exactly one HTTP call — the token request — and terminates by sys.exit; in
particular no photo submission is ever issued. -/
theorem c5_token_500_one_call
    (args : Args) (config : Settings) (words : Fin 3 → String) (w : World)
    (h : w.tokenResp.status = 500) :
    (photo_enrol args config words w).calls =
      [.postJson (enrol_token_url config)
         (enrol_token_body config (fw_generate words))] ∧
    (photo_enrol args config words w).outcome = .sysExit := by
  simp [photo_enrol, seqStep, create_token, request_log, h, abortOutcome]

/-- A world whose token request fails with HTTP 500. -/
def w500 : World :=
  ⟨⟨500, "err", []⟩, some [1], resp200 [], resp200 [("access_token", "A")],
   resp200 []⟩

/-- Witness for C5 at a concrete configuration and world. -/
theorem c5_witness :
    (photo_enrol ⟨true⟩ cfg0 words0 w500).calls =
      [.postJson (enrol_token_url cfg0)
         (enrol_token_body cfg0 (fw_generate words0))] ∧
    (photo_enrol ⟨true⟩ cfg0 words0 w500).outcome = .sysExit :=
  c5_token_500_one_call ⟨true⟩ cfg0 words0 w500 rfl

/-- C2: with the deletion flag unset, no access-token request and no delete
request is ever issued and at most two HTTP calls occur, in every world; and
whenever the token request returns 200 with a token field and the image file
is readable, exactly two calls occur: the enrolment-token request then the
photo submission. -/
theorem c2_flag_unset_two_calls
    (config : Settings) (words : Fin 3 → String) (w : World) :
    ((photo_enrol ⟨false⟩ config words w).calls.all fun c =>
      match c with
      | .postForm _ _ _ => false
      | .deleteReq _ _ => false
      | _ => true) = true ∧
    (photo_enrol ⟨false⟩ config words w).calls.length ≤ 2 ∧
    (∀ tok img,
      w.tokenResp.status = 200 →
      w.tokenResp.jsonBody.lookup "token" = some tok →
      w.fileContents = some img →
      (photo_enrol ⟨false⟩ config words w).calls =
        [.postJson (enrol_token_url config)
           (enrol_token_body config (fw_generate words)),
         .postMultipart (enrol_image_url config)
           (enrol_image_body config tok img)]) := by
  by_cases h1 : w.tokenResp.status = 200
  · cases h2 : w.tokenResp.jsonBody.lookup "token" with
    | none =>
      simp [photo_enrol, seqStep, create_token, request_log, h1, h2]
    | some tok =>
      cases h3 : w.fileContents with
      | none =>
        simp [photo_enrol, seqStep, create_token, send_photo, request_log,
              h1, h2, h3]
      | some img =>
        by_cases h4 : w.photoResp.status = 200
        · simp [photo_enrol, seqStep, create_token, send_photo, request_log,
                h1, h2, h3, h4]
        · simp [photo_enrol, seqStep, create_token, send_photo, request_log,
                h1, h2, h3, h4]
  · simp [photo_enrol, seqStep, create_token, request_log, h1]

/-- Witness for C2 at a concrete configuration and world. -/
theorem c2_witness :
    (photo_enrol ⟨false⟩ cfg0 words0 w0).calls.length ≤ 2 ∧
    (photo_enrol ⟨false⟩ cfg0 words0 w0).calls =
      [.postJson (enrol_token_url cfg0)
         (enrol_token_body cfg0 (fw_generate words0)),
       .postMultipart (enrol_image_url cfg0)
         (enrol_image_body cfg0 "T" [1, 2, 3])] :=
  ⟨(c2_flag_unset_two_calls cfg0 words0 w0).2.1,
   (c2_flag_unset_two_calls cfg0 words0 w0).2.2 "T" [1, 2, 3] rfl rfl rfl⟩

/-- C3 is false as stated: when the token request returns HTTP 500 the run
does terminate at that point (one call, by sys.exit), but `sys.exit()` is
called with no argument, so the process exit status is 0, not non-zero. -/
theorem c3_counterexample :
    (photo_enrol ⟨true⟩ cfg0 words0 w500).calls.length = 1 ∧
    (photo_enrol ⟨true⟩ cfg0 words0 w500).outcome = .sysExit ∧
    exitCode (photo_enrol ⟨true⟩ cfg0 words0 w500).outcome = 0 := by decide

/-- C3 amended: whenever a performed HTTP call returns a non-200 status the
process terminates at that point via sys.exit() and no later call is issued,
but the exit status is 0 (`sys.exit()` with no argument), so exit status 0
does not distinguish full success from request failure. -/
theorem c3_amended_fail_fast
    (args : Args) (config : Settings) (words : Fin 3 → String) (w : World) :
    (w.tokenResp.status ≠ 200 →
      (photo_enrol args config words w).calls =
        [.postJson (enrol_token_url config)
           (enrol_token_body config (fw_generate words))] ∧
      (photo_enrol args config words w).outcome = .sysExit) ∧
    (∀ tok img,
      w.tokenResp.status = 200 →
      w.tokenResp.jsonBody.lookup "token" = some tok →
      w.fileContents = some img →
      w.photoResp.status ≠ 200 →
      (photo_enrol args config words w).calls =
        [.postJson (enrol_token_url config)
           (enrol_token_body config (fw_generate words)),
         .postMultipart (enrol_image_url config)
           (enrol_image_body config tok img)] ∧
      (photo_enrol args config words w).outcome = .sysExit) ∧
    (∀ tok img,
      args.delete_user = true →
      w.tokenResp.status = 200 →
      w.tokenResp.jsonBody.lookup "token" = some tok →
      w.fileContents = some img →
      w.photoResp.status = 200 →
      w.accessResp.status ≠ 200 →
      (photo_enrol args config words w).calls =
        [.postJson (enrol_token_url config)
           (enrol_token_body config (fw_generate words)),
         .postMultipart (enrol_image_url config)
           (enrol_image_body config tok img),
         .postForm (access_token_url config)
           [("grant_type", "client_credentials")]
           (config.oa_username, config.oa_pw)] ∧
      (photo_enrol args config words w).outcome = .sysExit) ∧
    (∀ tok img atok,
      args.delete_user = true →
      w.tokenResp.status = 200 →
      w.tokenResp.jsonBody.lookup "token" = some tok →
      w.fileContents = some img →
      w.photoResp.status = 200 →
      w.accessResp.status = 200 →
      w.accessResp.jsonBody.lookup "access_token" = some atok →
      w.deleteResp.status ≠ 200 →
      (photo_enrol args config words w).calls =
        [.postJson (enrol_token_url config)
           (enrol_token_body config (fw_generate words)),
         .postMultipart (enrol_image_url config)
           (enrol_image_body config tok img),
         .postForm (access_token_url config)
           [("grant_type", "client_credentials")]
           (config.oa_username, config.oa_pw),
         .deleteReq (delete_user_url config (fw_generate words))
           [("Authorization", "Bearer " ++ atok)]] ∧
      (photo_enrol args config words w).outcome = .sysExit) ∧
    exitCode Outcome.sysExit = 0 := by
  refine ⟨?_, ?_, ?_, ?_, rfl⟩
  · intro h1
    simp [photo_enrol, seqStep, create_token, request_log, h1, abortOutcome]
  · intro tok img h1 h2 h3 h4
    simp [photo_enrol, seqStep, create_token, send_photo, request_log,
          h1, h2, h3, h4, abortOutcome]
  · intro tok img hd h1 h2 h3 h4 h5
    simp [photo_enrol, seqStep, create_token, send_photo,
          create_access_token, request_log, hd, h1, h2, h3, h4, h5,
          abortOutcome]
  · intro tok img atok hd h1 h2 h3 h4 h5 h6 h7
    simp [photo_enrol, seqStep, create_token, send_photo,
          create_access_token, delete_user, request_log, hd,
          h1, h2, h3, h4, h5, h6, h7, abortOutcome]

/-- Witness for the amended C3 at a concrete configuration and world. -/
theorem c3_amended_witness :
    (photo_enrol ⟨false⟩ cfg0 words0 w500).calls =
      [.postJson (enrol_token_url cfg0)
         (enrol_token_body cfg0 (fw_generate words0))] ∧
    (photo_enrol ⟨false⟩ cfg0 words0 w500).outcome = .sysExit :=
  (c3_amended_fail_fast ⟨false⟩ cfg0 words0 w500).1 (by decide)

/-- A world whose token request returns 200 but whose JSON body has no
`token` field. -/
def wNoTok : World :=
  ⟨resp200 [("other", "x")], some [1], resp200 [],
   resp200 [("access_token", "A")], resp200 []⟩

/-- C4 is false as stated: when the token request returns 200 without a
`token` field the run terminates immediately after that one call, but it
does so by an uncaught KeyError and logs no error-level line at all (the
status was 200, so an info-level success line was logged). -/
theorem c4_counterexample :
    (photo_enrol ⟨true⟩ cfg0 words0 wNoTok).calls.length = 1 ∧
    (photo_enrol ⟨true⟩ cfg0 words0 wNoTok).outcome =
      .uncaught (.keyError "token") ∧
    ((photo_enrol ⟨true⟩ cfg0 words0 wNoTok).logs.all
      fun e => e.level != LogLevel.error) = true := by decide

/-- C4 amended: when the enrolment-token request or the access-token request
returns HTTP 200 but the JSON body lacks the expected field (`token`,
respectively `access_token`), the program terminates immediately via an
uncaught KeyError without issuing any further HTTP call; no error is logged
(every emitted log line is below error level — the 200 status was logged as
a success). -/
theorem c4_amended_missing_field
    (args : Args) (config : Settings) (words : Fin 3 → String) (w : World) :
    (w.tokenResp.status = 200 →
      w.tokenResp.jsonBody.lookup "token" = none →
      (photo_enrol args config words w).calls =
        [.postJson (enrol_token_url config)
           (enrol_token_body config (fw_generate words))] ∧
      (photo_enrol args config words w).outcome =
        .uncaught (.keyError "token") ∧
      ((photo_enrol args config words w).logs.all
        fun e => e.level != LogLevel.error) = true) ∧
    (∀ tok img,
      args.delete_user = true →
      w.tokenResp.status = 200 →
      w.tokenResp.jsonBody.lookup "token" = some tok →
      w.fileContents = some img →
      w.photoResp.status = 200 →
      w.accessResp.status = 200 →
      w.accessResp.jsonBody.lookup "access_token" = none →
      (photo_enrol args config words w).calls =
        [.postJson (enrol_token_url config)
           (enrol_token_body config (fw_generate words)),
         .postMultipart (enrol_image_url config)
           (enrol_image_body config tok img),
         .postForm (access_token_url config)
           [("grant_type", "client_credentials")]
           (config.oa_username, config.oa_pw)] ∧
      (photo_enrol args config words w).outcome =
        .uncaught (.keyError "access_token") ∧
      ((photo_enrol args config words w).logs.all
        fun e => e.level != LogLevel.error) = true) := by
  constructor
  · intro h1 h2
    simp [photo_enrol, seqStep, create_token, request_log, h1, h2,
          abortOutcome]
  · intro tok img hd h1 h2 h3 h4 h5 h6
    simp [photo_enrol, seqStep, create_token, send_photo,
          create_access_token, request_log, hd, h1, h2, h3, h4, h5, h6,
          abortOutcome]

/-- Witness for the amended C4 at a concrete configuration and world. -/
theorem c4_amended_witness :
    (photo_enrol ⟨false⟩ cfg0 words0 wNoTok).calls =
      [.postJson (enrol_token_url cfg0)
         (enrol_token_body cfg0 (fw_generate words0))] ∧
    (photo_enrol ⟨false⟩ cfg0 words0 wNoTok).outcome =
      .uncaught (.keyError "token") ∧
    ((photo_enrol ⟨false⟩ cfg0 words0 wNoTok).logs.all
      fun e => e.level != LogLevel.error) = true :=
  (c4_amended_missing_field ⟨false⟩ cfg0 words0 wNoTok).1 rfl rfl

/-- C6: when the configured image file cannot be opened, the run never issues
the photo-submission request — its call trace is just the enrolment-token
request — and the process does not complete normally. -/
theorem c6_unreadable_file_no_photo
    (args : Args) (config : Settings) (words : Fin 3 → String) (w : World)
    (h : w.fileContents = none) :
    (photo_enrol args config words w).calls =
      [.postJson (enrol_token_url config)
         (enrol_token_body config (fw_generate words))] ∧
    (photo_enrol args config words w).outcome ≠ .completed := by
  by_cases h1 : w.tokenResp.status = 200
  · cases h2 : w.tokenResp.jsonBody.lookup "token" with
    | none =>
      simp [photo_enrol, seqStep, create_token, request_log, h1, h2,
            abortOutcome]
    | some tok =>
      simp [photo_enrol, seqStep, create_token, send_photo, request_log,
            h1, h2, h, abortOutcome]
  · simp [photo_enrol, seqStep, create_token, request_log, h1, abortOutcome]

/-- A world whose image file is missing or unreadable. -/
def wNoFile : World :=
  ⟨resp200 [("token", "T")], none, resp200 [],
   resp200 [("access_token", "A")], resp200 []⟩

/-- Witness for C6 at a concrete configuration and world. -/
theorem c6_witness :
    (photo_enrol ⟨true⟩ cfg0 words0 wNoFile).calls =
      [.postJson (enrol_token_url cfg0)
         (enrol_token_body cfg0 (fw_generate words0))] ∧
    (photo_enrol ⟨true⟩ cfg0 words0 wNoFile).outcome ≠ .completed :=
  c6_unreadable_file_no_photo ⟨true⟩ cfg0 words0 wNoFile rfl

/-- Splitting a character list at the first separator occurrence is
unambiguous when neither prefix contains the separator. -/
theorem append_sep_inj {a b r s : List Char}
    (ha : '_' ∉ a) (hb : '_' ∉ b)
    (h : a ++ '_' :: r = b ++ '_' :: s) : a = b ∧ r = s := by
  induction a generalizing b with
  | nil =>
    cases b with
    | nil => simpa using h
    | cons y ys =>
      simp only [List.nil_append, List.cons_append, List.cons.injEq] at h
      exact absurd (h.1 ▸ List.mem_cons_self y ys) hb
  | cons x xs ih =>
    cases b with
    | nil =>
      simp only [List.cons_append, List.nil_append, List.cons.injEq] at h
      exact absurd (h.1 ▸ List.mem_cons_self x xs) ha
    | cons y ys =>
      simp only [List.cons_append, List.cons.injEq] at h
      have hxs : '_' ∉ xs := fun hm => ha (List.mem_cons_of_mem x hm)
      have hys : '_' ∉ ys := fun hm => hb (List.mem_cons_of_mem y hm)
      obtain ⟨heq, hr⟩ := ih hxs hys h.2
      exact ⟨by rw [h.1, heq], hr⟩

/-- The character list of a generated username is the three drawn words
joined by single underscores. -/
theorem fw_generate_data (ws : Fin 3 → String) :
    (fw_generate ws).data =
      (ws 0).data ++ '_' :: ((ws 1).data ++ '_' :: (ws 2).data) := by
  simp [fw_generate, String.data_append]

/-- The username generator is injective on underscore-free word draws:
distinct draws give distinct usernames. -/
theorem fw_generate_inj (ws vs : Fin 3 → String)
    (hw : ∀ i, '_' ∉ (ws i).data) (hv : ∀ i, '_' ∉ (vs i).data)
    (h : fw_generate ws = fw_generate vs) : ws = vs := by
  have hdata : (fw_generate ws).data = (fw_generate vs).data := by rw [h]
  rw [fw_generate_data, fw_generate_data] at hdata
  obtain ⟨h0, hrest⟩ := append_sep_inj (hw 0) (hv 0) hdata
  obtain ⟨h1, h2⟩ := append_sep_inj (hw 1) (hv 1) hrest
  funext i
  fin_cases i
  · exact String.ext h0
  · exact String.ext h1
  · exact String.ext h2

/-- C8: the generated username is the three randomly drawn words joined by
underscores (three-word shape, and the decomposition is unambiguous: the
generator is injective on underscore-free draws, so usernames collide only
when the random draw itself repeats); it is fixed before any HTTP call — in
every world the very first call, the enrolment-token request, already carries
it as the user_id field — and when deletion is requested the same string is
what the final delete request's URL is built from. -/
theorem c8_username_generation
    (args : Args) (config : Settings) (words : Fin 3 → String) (w : World)
    (hw : ∀ i, '_' ∉ (words i).data) :
    (fw_generate words).data =
      (words 0).data ++ '_' :: ((words 1).data ++ '_' :: (words 2).data) ∧
    (∀ vs : Fin 3 → String, (∀ i, '_' ∉ (vs i).data) →
      fw_generate words = fw_generate vs → words = vs) ∧
    (photo_enrol args config words w).calls.head? =
      some (.postJson (enrol_token_url config)
        (enrol_token_body config (fw_generate words))) ∧
    (enrol_token_body config (fw_generate words)).lookup "user_id" =
      some (fw_generate words) ∧
    (∀ tok img atok,
      args.delete_user = true →
      w.tokenResp.status = 200 →
      w.tokenResp.jsonBody.lookup "token" = some tok →
      w.fileContents = some img →
      w.photoResp.status = 200 →
      w.accessResp.status = 200 →
      w.accessResp.jsonBody.lookup "access_token" = some atok →
      w.deleteResp.status = 200 →
      (photo_enrol args config words w).calls.getLast? =
        some (.deleteReq (delete_user_url config (fw_generate words))
          [("Authorization", "Bearer " ++ atok)])) := by
  refine ⟨fw_generate_data words,
          fun vs hv h => fw_generate_inj words vs hw hv h, ?_, rfl, ?_⟩
  · by_cases h1 : w.tokenResp.status = 200
    · cases h2 : w.tokenResp.jsonBody.lookup "token" with
      | none =>
        simp [photo_enrol, seqStep, create_token, request_log, h1, h2]
      | some tok =>
        cases h3 : w.fileContents with
        | none =>
          simp [photo_enrol, seqStep, create_token, send_photo, request_log,
                h1, h2, h3]
        | some img =>
          simp [photo_enrol, seqStep, create_token, send_photo, request_log,
                h1, h2, h3]
    · simp [photo_enrol, seqStep, create_token, request_log, h1]
  · intro tok img atok hd h1 h2 h3 h4 h5 h6 h7
    simp [photo_enrol, seqStep, create_token, send_photo,
          create_access_token, delete_user, request_log, hd,
          h1, h2, h3, h4, h5, h6, h7]

/-- Witness for C8 at a concrete draw, configuration and world. -/
theorem c8_witness :
    (fw_generate words0).data =
      (words0 0).data ++ '_' :: ((words0 1).data ++ '_' :: (words0 2).data) ∧
    (photo_enrol ⟨true⟩ cfg0 words0 w0).calls.head? =
      some (.postJson (enrol_token_url cfg0)
        (enrol_token_body cfg0 (fw_generate words0))) ∧
    (photo_enrol ⟨true⟩ cfg0 words0 w0).calls.getLast? =
      some (.deleteReq (delete_user_url cfg0 (fw_generate words0))
        [("Authorization", "Bearer " ++ "A")]) :=
  ⟨(c8_username_generation ⟨true⟩ cfg0 words0 w0 (by decide)).1,
   (c8_username_generation ⟨true⟩ cfg0 words0 w0 (by decide)).2.2.1,
   (c8_username_generation ⟨true⟩ cfg0 words0 w0 (by decide)).2.2.2.2
     "T" [1, 2, 3] "A" rfl rfl rfl rfl rfl rfl rfl rfl⟩

/-- C10: the LOG_LEVEL configuration value is uppercased before being applied
as the logging level, so any two configurations whose LOG_LEVEL values agree
up to case — their uppercasings equal and naming a valid level — configure
the very same logging level. -/
theorem c10_log_level_case_insensitive (a b : Settings)
    (hsame : strUpper a.LOG_LEVEL = strUpper b.LOG_LEVEL)
    (hvalid : strUpper a.LOG_LEVEL ∈ validLevelNames) :
    configuredLogLevel a = configuredLogLevel b ∧
    configuredLogLevel a ∈ validLevelNames :=
  ⟨hsame, hvalid⟩

/-- A configuration whose LOG_LEVEL is spelled in mixed case. -/
def cfgMixed : Settings :=
  ⟨"DeBuG", "eu", "oic", "img.jpg", "key", "sec", "user", "pw"⟩

/-- A configuration whose LOG_LEVEL is spelled in lower case. -/
def cfgLower : Settings :=
  ⟨"debug", "eu", "oic", "img.jpg", "key", "sec", "user", "pw"⟩

/-- Witness for C10 at two concrete spellings of the same level. -/
theorem c10_witness :
    configuredLogLevel cfgMixed = configuredLogLevel cfgLower ∧
    configuredLogLevel cfgMixed ∈ validLevelNames :=
  c10_log_level_case_insensitive cfgMixed cfgLower (by decide) (by decide)

end PhotoEnrol
